import Mathlib

/-!
Shallow embedding of the OpenSASE e-commerce domain layer
(src/domain/value_objects/mod.rs, src/domain/events/mod.rs,
src/domain/aggregates/cart.rs, src/domain/aggregates/order.rs).

Conventions of the embedding:
* `rust_decimal::Decimal` amounts are modelled as exact rationals (ℚ).
* `u32` values are modelled as naturals; where the source relies on a
  specific overflow behaviour it is made explicit: `saturating_add`
  becomes `min (v + n) u32Max`, and the unchecked `+=` in
  `Cart::add_item` becomes wrapping addition modulo 2^32 (the release
  build semantics of u32 overflow).
* `Uuid::new_v4()` and `Utc::now()` are ambient effects; constructors and
  mutating operations take the generated id and the current time as
  explicit parameters (`id : String`, `now : Nat`).
* Rust methods that mutate `&mut self` and return `Result<(), E>` are
  translated state-passing style as functions returning
  `Except E Unit × State`; an early `return Err(..)` yields the state at
  the point of return, which is the unmodified receiver.
-/

namespace Ecom

/-- Decimal amounts (rust_decimal fixed-point) modelled as exact rationals. -/
abbrev Decimal := ℚ

/-- Maximum value of a u32 (`u32::MAX`). -/
def u32Max : Nat := 4294967295

/-- 2^32, the modulus of wrapping u32 arithmetic. -/
def u32Mod : Nat := 4294967296

/-- Money value object (value_objects/mod.rs lines 34-48). -/
structure Money where
  amount : Decimal
  currency : String
deriving DecidableEq

/-- Error of Money arithmetic (value_objects/mod.rs line 52). -/
inductive MoneyError where
  | CurrencyMismatch
deriving DecidableEq

/-- `Money::new` (unchecked construction). -/
def Money.new (amount : Decimal) (currency : String) : Money :=
  { amount := amount, currency := currency }

/-- `Money::usd`. -/
def Money.usd (amount : Decimal) : Money := Money.new amount "USD"

/-- `Money::zero`. -/
def Money.zero (currency : String) : Money := Money.new 0 currency

/-- `Money::add`: fails with CurrencyMismatch when the currencies differ. -/
def Money.add (self other : Money) : Except MoneyError Money :=
  if self.currency ≠ other.currency then Except.error MoneyError.CurrencyMismatch
  else Except.ok (Money.new (self.amount + other.amount) self.currency)

/-- `Money::multiply`: amount × qty in the same currency, never fails. -/
def Money.multiply (self : Money) (qty : Nat) : Money :=
  Money.new (self.amount * (qty : Decimal)) self.currency

/-- `r.unwrap_or(acc)` applied to `acc.add(m)`: the accumulation step used by
both `Cart::recalculate` and `Order::recalculate`. -/
def moneyAccum (acc m : Money) : Money :=
  match acc.add m with
  | Except.ok r => r
  | Except.error _ => acc

/-- Quantity value object wrapping a u32 (value_objects/mod.rs lines 59-70). -/
structure Quantity where
  val : Nat
deriving DecidableEq

/-- `Quantity::new`. -/
def Quantity.new (value : Nat) : Quantity := { val := value }

/-- `Quantity::add`: `saturating_add`, clamping at `u32::MAX`. -/
def Quantity.add (self : Quantity) (other : Nat) : Quantity :=
  { val := min (self.val + other) u32Max }

/-- `Quantity::subtract`: `None` when `other` exceeds the value. -/
def Quantity.subtract (self : Quantity) (other : Nat) : Option Quantity :=
  if other > self.val then none else some { val := self.val - other }

/-- `Quantity::is_zero`. -/
def Quantity.is_zero (self : Quantity) : Bool := self.val == 0

/-- The Unicode White_Space code points recognised by Rust
`char::is_whitespace` (used by `str::trim`). -/
def rustWhitespaceCodes : List Nat :=
  [0x9, 0xA, 0xB, 0xC, 0xD, 0x20, 0x85, 0xA0, 0x1680,
   0x2000, 0x2001, 0x2002, 0x2003, 0x2004, 0x2005, 0x2006, 0x2007,
   0x2008, 0x2009, 0x200A, 0x2028, 0x2029, 0x202F, 0x205F, 0x3000]

/-- Rust `char::is_whitespace`. -/
def rustIsWhitespace (c : Char) : Bool := rustWhitespaceCodes.contains c.toNat

/-- Rust `str::trim`: strip leading and trailing whitespace. Strings are
modelled as their lists of Unicode scalar values. -/
def rustTrim (s : List Char) : List Char :=
  ((s.dropWhile rustIsWhitespace).reverse.dropWhile rustIsWhitespace).reverse

/-- Modelled from Rust std `char::to_uppercase` — the full Unicode uppercase
mapping, whose result is a sequence of characters (it can expand one
character to several, e.g. sharp s to "SS"). The table is embedded here only
on the domain `upperModelled` below, where it is exact: ASCII letters a-z
map to the single character A-Z, every other ASCII character is
case-invariant, and the euro sign U+20AC has no uppercase mapping and maps
to itself. Outside that domain this model falls back to the identity, which
does not agree with Unicode for characters such as U+0131 or U+00E9, so
every theorem that quantifies over inputs restricts their characters to
`upperModelled`. -/
def rustToUppercaseChar (c : Char) : List Char :=
  if 0x61 ≤ c.toNat ∧ c.toNat ≤ 0x7A then [Char.ofNat (c.toNat - 0x20)] else [c]

/-- The characters on which `rustToUppercaseChar` is a faithful model of
Rust `char::to_uppercase`: the ASCII range (a-z map to A-Z, all other ASCII
characters are case-invariant) and the euro sign, which carries no Unicode
uppercase mapping. -/
def upperModelled (c : Char) : Prop := c.toNat < 0x80 ∨ c = '€'

instance (c : Char) : Decidable (upperModelled c) := by
  unfold upperModelled
  infer_instance

/-- Number of bytes of the UTF-8 encoding of a scalar value; Rust
`String::len` is the sum of these over the string's characters. -/
def charUtf8Size (c : Char) : Nat :=
  if c.toNat < 0x80 then 1
  else if c.toNat < 0x800 then 2
  else if c.toNat < 0x10000 then 3
  else 4

/-- Rust `String::len`: the UTF-8 byte length, not the character count. -/
def utf8Len (s : List Char) : Nat := (s.map charUtf8Size).sum

/-- Error of Sku construction (value_objects/mod.rs line 25). -/
inductive SkuError where
  | Empty
  | TooLong
deriving DecidableEq

/-- SKU value object: a validated, normalized string (value_objects/mod.rs
lines 8-19). The only constructor exposed by the module is `Sku::new`. -/
structure Sku where
  val : List Char
deriving DecidableEq

/-- `value.into().trim().to_uppercase()`: the normalization performed by
`Sku::new` before validation — trim first, then concatenate the uppercase
mapping of each remaining character. -/
def skuNormalize (raw : List Char) : List Char :=
  ((rustTrim raw).map rustToUppercaseChar).flatten

/-- `Sku::new` (value_objects/mod.rs lines 12-17): trim, upper-case, then
reject the empty string and strings whose byte length exceeds 50. -/
def Sku.new (raw : List Char) : Except SkuError Sku :=
  let value := skuNormalize raw
  if value.isEmpty then Except.error SkuError.Empty
  else if utf8Len value > 50 then Except.error SkuError.TooLong
  else Except.ok { val := value }

/-- Product events (events/mod.rs lines 11-17). -/
inductive ProductEvent where
  | Created (product_id : String) (sku : Sku)
  | Published (product_id : String)
  | InventoryAdded (product_id : String) (quantity : Nat)
  | InventoryRemoved (product_id : String) (quantity : Nat)
deriving DecidableEq

/-- Order events (events/mod.rs lines 19-27). -/
inductive OrderEvent where
  | Created (order_id : String) (customer_id : String)
  | Confirmed (order_id : String) (total : Decimal)
  | Paid (order_id : String)
  | Shipped (order_id : String) (tracking : Option String)
  | Delivered (order_id : String)
  | Cancelled (order_id : String)
deriving DecidableEq

/-- Domain events tagged by originating aggregate kind (events/mod.rs). -/
inductive DomainEvent where
  | Product (e : ProductEvent)
  | Order (e : OrderEvent)
deriving DecidableEq

/-- Cart line item (cart.rs lines 20-28). -/
structure CartItem where
  product_id : String
  variant_id : Option String
  name : String
  sku : String
  quantity : Nat
  unit_price : Money
deriving DecidableEq

/-- `CartItem::line_total`: derived as unit price × quantity (cart.rs
line 31); a CartItem stores no total field. -/
def CartItem.line_total (self : CartItem) : Money :=
  self.unit_price.multiply self.quantity

/-- Cart aggregate (cart.rs lines 8-18). -/
structure Cart where
  id : String
  customer_id : Option String
  session_id : Option String
  items : List CartItem
  subtotal : Money
  currency : String
  created_at : Nat
  updated_at : Nat
deriving DecidableEq

/-- Cart errors (cart.rs line 88). -/
inductive CartError where
  | ItemNotFound
deriving DecidableEq

/-- `Cart::new` (cart.rs lines 35-41); the generated Uuid and the current
time are explicit parameters. -/
def Cart.new (currency : String) (id : String) (now : Nat) : Cart :=
  { id := id
    customer_id := none
    session_id := none
    items := []
    subtotal := Money.zero currency
    currency := currency
    created_at := now
    updated_at := now }

/-- `Cart::for_customer` (cart.rs lines 43-47). -/
def Cart.for_customer (customer_id : String) (currency : String)
    (id : String) (now : Nat) : Cart :=
  { Cart.new currency id now with customer_id := some customer_id }

/-- `Cart::item_count` (cart.rs line 52). -/
def Cart.item_count (self : Cart) : Nat := self.items.length

/-- The fold of `Cart::recalculate` (cart.rs line 83): starting from zero in
the cart's currency, each line total is added with
`acc.add(..).unwrap_or(acc)`, so a line whose currency mismatches the
accumulator leaves the accumulator unchanged. -/
def cartFoldSubtotal (currency : String) (items : List CartItem) : Money :=
  items.foldl (fun acc i => moneyAccum acc i.line_total) (Money.zero currency)

/-- `Cart::recalculate` (cart.rs lines 82-85). -/
def Cart.recalculate (self : Cart) (now : Nat) : Cart :=
  { self with
      subtotal := cartFoldSubtotal self.currency self.items
      updated_at := now }

/-- The in-place merge of `Cart::add_item` (cart.rs lines 56-57):
`iter_mut().find(..)` locates the first line with the same product and
variant identity and bumps its quantity with u32 `+=` (wrapping mod 2^32);
`none` when no line matches. -/
def addItemMerge (item : CartItem) : List CartItem → Option (List CartItem)
  | [] => none
  | i :: rest =>
    if i.product_id = item.product_id ∧ i.variant_id = item.variant_id then
      some ({ i with quantity := (i.quantity + item.quantity) % u32Mod } :: rest)
    else
      match addItemMerge item rest with
      | some rest2 => some (i :: rest2)
      | none => none

/-- `Cart::add_item` (cart.rs lines 55-62). -/
def Cart.add_item (self : Cart) (item : CartItem) (now : Nat) : Cart :=
  let items2 :=
    match addItemMerge item self.items with
    | some items2 => items2
    | none => self.items ++ [item]
  Cart.recalculate { self with items := items2 } now

/-- `item.quantity = quantity` on the line found by
`iter_mut().find(|i| i.product_id == product_id)`: replace the quantity of
the first line matching the product id. -/
def setFirstQuantity (pid : String) (q : Nat) : List CartItem → List CartItem
  | [] => []
  | i :: rest =>
    if i.product_id = pid then { i with quantity := q } :: rest
    else i :: setFirstQuantity pid q rest

/-- `Cart::update_quantity` (cart.rs lines 64-70). The early `?` return on a
missing line leaves the cart untouched; otherwise quantity zero retains only
the lines with a different product id, and a non-zero quantity overwrites
the first matching line's quantity, followed by recalculation. -/
def Cart.update_quantity (self : Cart) (product_id : String)
    (quantity : Nat) (now : Nat) : Except CartError Unit × Cart :=
  match self.items.find? (fun i => i.product_id == product_id) with
  | none => (Except.error CartError.ItemNotFound, self)
  | some _ =>
    let items2 :=
      if quantity = 0 then self.items.filter (fun i => i.product_id != product_id)
      else setFirstQuantity product_id quantity self.items
    (Except.ok (), Cart.recalculate { self with items := items2 } now)

/-- `Cart::remove_item` (cart.rs lines 72-78): retain the non-matching
lines; if the length is unchanged nothing was removed and the call fails
(with the items, retained unchanged, equal to the original list). -/
def Cart.remove_item (self : Cart) (product_id : String) (now : Nat) :
    Except CartError Unit × Cart :=
  let items2 := self.items.filter (fun i => i.product_id != product_id)
  if items2.length = self.items.length then (Except.error CartError.ItemNotFound, self)
  else (Except.ok (), Cart.recalculate { self with items := items2 } now)

/-- `Cart::clear` (cart.rs line 80). -/
def Cart.clear (self : Cart) (now : Nat) : Cart :=
  Cart.recalculate { self with items := [] } now

/-- The carts reachable through the public cart operations. -/
inductive Cart.Reachable : Cart → Prop where
  | new (currency id : String) (now : Nat) :
      Cart.Reachable (Cart.new currency id now)
  | for_customer (customer_id currency id : String) (now : Nat) :
      Cart.Reachable (Cart.for_customer customer_id currency id now)
  | add_item {c : Cart} (item : CartItem) (now : Nat) :
      Cart.Reachable c → Cart.Reachable (c.add_item item now)
  | update_quantity {c : Cart} (product_id : String) (quantity now : Nat) :
      Cart.Reachable c → Cart.Reachable (c.update_quantity product_id quantity now).2
  | remove_item {c : Cart} (product_id : String) (now : Nat) :
      Cart.Reachable c → Cart.Reachable (c.remove_item product_id now).2
  | clear {c : Cart} (now : Nat) :
      Cart.Reachable c → Cart.Reachable (c.clear now)

/-- Order line item (order.rs line 32): unlike CartItem, the line `total` is
a stored field, populated by whoever constructs the LineItem. -/
structure LineItem where
  id : String
  product_id : String
  name : String
  sku : String
  quantity : Nat
  unit_price : Money
  total : Money
deriving DecidableEq

/-- Shipping/billing address (order.rs line 33). -/
structure Address where
  name : String
  street1 : String
  street2 : Option String
  city : String
  state : Option String
  zip : String
  country : String
deriving DecidableEq

/-- Order status axis (order.rs line 34). -/
inductive OrderStatus where
  | Pending
  | Confirmed
  | Processing
  | Shipped
  | Delivered
  | Cancelled
  | Refunded
deriving DecidableEq

/-- Fulfillment status axis (order.rs line 35). -/
inductive FulfillmentStatus where
  | Unfulfilled
  | Partial
  | Fulfilled
deriving DecidableEq

/-- Payment status axis (order.rs line 36). -/
inductive PaymentStatus where
  | Pending
  | Authorized
  | Paid
  | Refunded
  | Voided
deriving DecidableEq

/-- Order errors (order.rs line 91). -/
inductive OrderError where
  | NoItems
  | CannotCancel
deriving DecidableEq

/-- Order aggregate (order.rs lines 9-30). -/
structure Order where
  id : String
  order_number : Nat
  customer_id : String
  email : String
  status : OrderStatus
  fulfillment : FulfillmentStatus
  payment : PaymentStatus
  items : List LineItem
  subtotal : Money
  shipping : Money
  tax : Money
  discount : Money
  total : Money
  shipping_address : Option Address
  billing_address : Option Address
  notes : Option String
  created_at : Nat
  updated_at : Nat
  events : List DomainEvent
deriving DecidableEq

/-- `Order::create` (order.rs lines 39-49). -/
def Order.create (order_number : Nat) (customer_id email : String)
    (currency : String) (id : String) (now : Nat) : Order :=
  { id := id
    order_number := order_number
    customer_id := customer_id
    email := email
    status := OrderStatus.Pending
    fulfillment := FulfillmentStatus.Unfulfilled
    payment := PaymentStatus.Pending
    items := []
    subtotal := Money.zero currency
    shipping := Money.zero currency
    tax := Money.zero currency
    discount := Money.zero currency
    total := Money.zero currency
    shipping_address := none
    billing_address := none
    notes := none
    created_at := now
    updated_at := now
    events := [] }

/-- `Order::recalculate` (order.rs lines 79-84): the subtotal is the fold of
the stored line `total` fields starting from zero in the (old) subtotal's
currency; the total is subtotal plus shipping plus tax, each addition
falling back to the left operand on a currency mismatch. The discount field
does not appear in the computation. -/
def Order.recalculate (self : Order) (now : Nat) : Order :=
  let subtotal2 :=
    self.items.foldl (fun acc i => moneyAccum acc i.total)
      (Money.zero self.subtotal.currency)
  let total2 := moneyAccum subtotal2 self.shipping
  let total3 := moneyAccum total2 self.tax
  { self with subtotal := subtotal2, total := total3, updated_at := now }

/-- `Order::add_item` (order.rs line 57): push, then recalculate. -/
def Order.add_item (self : Order) (item : LineItem) (now : Nat) : Order :=
  Order.recalculate { self with items := self.items ++ [item] } now

/-- `Order::confirm` (order.rs lines 59-65). -/
def Order.confirm (self : Order) (now : Nat) : Except OrderError Unit × Order :=
  if self.items.isEmpty then (Except.error OrderError.NoItems, self)
  else
    (Except.ok (),
     { self with
         status := OrderStatus.Confirmed
         updated_at := now
         events := self.events ++
           [DomainEvent.Order (OrderEvent.Confirmed self.id self.total.amount)] })

/-- `Order::mark_paid` (order.rs line 67). -/
def Order.mark_paid (self : Order) (now : Nat) : Order :=
  { self with
      payment := PaymentStatus.Paid
      status := OrderStatus.Processing
      updated_at := now }

/-- `Order::ship` (order.rs line 68). -/
def Order.ship (self : Order) (now : Nat) : Order :=
  { self with
      status := OrderStatus.Shipped
      fulfillment := FulfillmentStatus.Fulfilled
      updated_at := now }

/-- `Order::deliver` (order.rs line 69). -/
def Order.deliver (self : Order) (now : Nat) : Order :=
  { self with status := OrderStatus.Delivered, updated_at := now }

/-- `Order::cancel` (order.rs lines 71-77). -/
def Order.cancel (self : Order) (now : Nat) : Except OrderError Unit × Order :=
  if self.status = OrderStatus.Delivered then
    (Except.error OrderError.CannotCancel, self)
  else
    (Except.ok (),
     { self with
         status := OrderStatus.Cancelled
         updated_at := now
         events := self.events ++ [DomainEvent.Order (OrderEvent.Cancelled self.id)] })

/-- `Order::take_events` (order.rs line 86): drain the event buffer. -/
def Order.take_events (self : Order) : List DomainEvent × Order :=
  (self.events, { self with events := [] })

/-- The orders reachable through the public order operations. -/
inductive Order.Reachable : Order → Prop where
  | create (order_number : Nat) (customer_id email currency id : String) (now : Nat) :
      Order.Reachable (Order.create order_number customer_id email currency id now)
  | add_item {o : Order} (item : LineItem) (now : Nat) :
      Order.Reachable o → Order.Reachable (o.add_item item now)
  | confirm {o : Order} (now : Nat) :
      Order.Reachable o → Order.Reachable (o.confirm now).2
  | mark_paid {o : Order} (now : Nat) :
      Order.Reachable o → Order.Reachable (o.mark_paid now)
  | ship {o : Order} (now : Nat) :
      Order.Reachable o → Order.Reachable (o.ship now)
  | deliver {o : Order} (now : Nat) :
      Order.Reachable o → Order.Reachable (o.deliver now)
  | cancel {o : Order} (now : Nat) :
      Order.Reachable o → Order.Reachable (o.cancel now).2
  | take_events {o : Order} :
      Order.Reachable o → Order.Reachable o.take_events.2

/-! ### Claim C9: Quantity arithmetic -/

/-- Claim C9: `Quantity::subtract(n)` on value `v` returns `none` exactly when
`n > v` and otherwise returns `v - n`; `Quantity::add(n)` never exceeds
`u32::MAX`, returning the exact sum when it fits and saturating at the
maximum otherwise. -/
theorem claim_C9_quantity_ops (v n : Nat) :
    ((Quantity.new v).subtract n = none ↔ n > v) ∧
    (n ≤ v → (Quantity.new v).subtract n = some (Quantity.new (v - n))) ∧
    ((Quantity.new v).add n).val ≤ u32Max ∧
    (v + n ≤ u32Max → ((Quantity.new v).add n).val = v + n) ∧
    (u32Max < v + n → ((Quantity.new v).add n).val = u32Max) := by
  refine ⟨?_, ?_, ?_, ?_, ?_⟩
  · by_cases h : n > v <;> simp [Quantity.subtract, Quantity.new, h]
  · intro h
    simp [Quantity.subtract, Quantity.new, Nat.not_lt.mpr h]
  · simp only [Quantity.add, Quantity.new]
    omega
  · intro h
    simp only [Quantity.add, Quantity.new]
    omega
  · intro h
    simp only [Quantity.add, Quantity.new]
    omega

/-- Witness for C9 at concrete values. -/
theorem claim_C9_witness :
    (Quantity.new 3).subtract 5 = none ∧
    (Quantity.new 5).subtract 3 = some (Quantity.new 2) ∧
    ((Quantity.new u32Max).add 7).val = u32Max := by
  refine ⟨?_, ?_, ?_⟩
  · exact (claim_C9_quantity_ops 3 5).1.mpr (by decide)
  · exact (claim_C9_quantity_ops 5 3).2.1 (by decide)
  · exact (claim_C9_quantity_ops u32Max 7).2.2.2.2 (by decide)

/-! ### Claim C2: line totals (corrected) -/

/-- Claim C2 (amended): a CartItem's line total is derived on demand as unit
price × quantity and is not a stored field, but an Order LineItem's `total`
is a stored field supplied by the caller: `Order::add_item` appends the line
verbatim, neither recomputing nor validating its stored total. -/
theorem claim_C2_line_totals :
    (∀ i : CartItem, i.line_total = i.unit_price.multiply i.quantity) ∧
    (∀ (o : Order) (l : LineItem) (now : Nat),
       (o.add_item l now).items = o.items ++ [l]) :=
  ⟨fun _ => rfl, fun _ _ _ => rfl⟩

/-- A fresh order used by the C2 counterexample. -/
def c2Order : Order := Order.create 1001 "CUST001" "test" "USD" "oid-1" 0

/-- A line item whose stored total (999) differs from unit price × quantity
(10 × 2 = 20). -/
def c2Line : LineItem :=
  { id := "1", product_id := "P1", name := "Widget", sku := "W001",
    quantity := 2, unit_price := Money.usd 10, total := Money.usd 999 }

/-- Counterexample to C2 as stated: `Order::add_item` records a line whose
stored total differs from its unit price times its quantity. -/
theorem claim_C2_counterexample :
    (c2Order.add_item c2Line 0).items = [c2Line] ∧
    c2Line.total ≠ c2Line.unit_price.multiply c2Line.quantity := by
  constructor
  · rfl
  · intro h
    have h2 := congrArg Money.amount h
    simp only [c2Line, Money.usd, Money.new, Money.multiply] at h2
    norm_num at h2

/-! ### Claim C4: Order::confirm -/

/-- Claim C4: `confirm` fails with NoItems exactly when the order has no
line items, leaving the order unchanged on failure; on an order with at
least one line it succeeds, sets the status to Confirmed and appends exactly
one Confirmed event carrying the current total. -/
theorem claim_C4_confirm (o : Order) (now : Nat) :
    ((o.confirm now).1 = Except.error OrderError.NoItems ↔ o.items = []) ∧
    (o.items = [] → (o.confirm now).2 = o) ∧
    (o.items ≠ [] →
      (o.confirm now).1 = Except.ok () ∧
      (o.confirm now).2 =
        { o with
            status := OrderStatus.Confirmed
            updated_at := now
            events := o.events ++
              [DomainEvent.Order (OrderEvent.Confirmed o.id o.total.amount)] }) := by
  by_cases h : o.items = []
  · refine ⟨?_, fun _ => ?_, fun hne => absurd h hne⟩ <;> simp [Order.confirm, h]
  · have hisE : o.items.isEmpty = false := by
      cases hi : o.items with
      | nil => exact absurd hi h
      | cons a t => rfl
    refine ⟨?_, fun he => absurd he h, fun _ => ⟨?_, ?_⟩⟩ <;>
      simp [Order.confirm, hisE, h]

/-- An empty order used by the C4 witness. -/
def c4Order0 : Order := Order.create 7 "C" "e" "USD" "oid-4" 0

/-- A consistent line item used by the C4 witness. -/
def c4Line : LineItem :=
  { id := "1", product_id := "P1", name := "W", sku := "S",
    quantity := 2, unit_price := Money.usd 10, total := Money.usd 20 }

/-- The C4 witness order carrying one line item. -/
def c4Order1 : Order := c4Order0.add_item c4Line 1

/-- Witness for C4: an empty order fails to confirm; a one-line order
confirms. -/
theorem claim_C4_witness :
    (c4Order0.confirm 2).1 = Except.error OrderError.NoItems ∧
    (c4Order1.confirm 2).1 = Except.ok () := by
  constructor
  · exact (claim_C4_confirm c4Order0 2).1.mpr rfl
  · exact ((claim_C4_confirm c4Order1 2).2.2 (by decide)).1

/-! ### Claim C5: Order::cancel -/

/-- Claim C5: `cancel` fails with CannotCancel exactly when the status is
Delivered, leaving the order unchanged; on any other status (including
Cancelled and Refunded) it succeeds, sets the status to Cancelled and
appends exactly one Cancelled event. -/
theorem claim_C5_cancel (o : Order) (now : Nat) :
    ((o.cancel now).1 = Except.error OrderError.CannotCancel ↔
        o.status = OrderStatus.Delivered) ∧
    (o.status = OrderStatus.Delivered → (o.cancel now).2 = o) ∧
    (o.status ≠ OrderStatus.Delivered →
      (o.cancel now).1 = Except.ok () ∧
      (o.cancel now).2 =
        { o with
            status := OrderStatus.Cancelled
            updated_at := now
            events := o.events ++
              [DomainEvent.Order (OrderEvent.Cancelled o.id)] }) := by
  by_cases h : o.status = OrderStatus.Delivered
  · refine ⟨?_, fun _ => ?_, fun hne => absurd h hne⟩ <;> simp [Order.cancel, h]
  · refine ⟨?_, fun he => absurd he h, fun _ => ⟨?_, ?_⟩⟩ <;> simp [Order.cancel, h]

/-- A delivered order used by the C5 witness. -/
def c5OrderD : Order := (Order.create 8 "C" "e" "USD" "oid-5" 0).deliver 1

/-- An already-cancelled order used by the C5 witness. -/
def c5OrderC : Order := ((Order.create 9 "C" "e" "USD" "oid-6" 0).cancel 1).2

/-- Witness for C5: cancelling a delivered order fails; cancelling an
already-cancelled order succeeds. -/
theorem claim_C5_witness :
    (c5OrderD.cancel 2).1 = Except.error OrderError.CannotCancel ∧
    (c5OrderC.cancel 2).1 = Except.ok () := by
  constructor
  · exact (claim_C5_cancel c5OrderD 2).1.mpr rfl
  · exact ((claim_C5_cancel c5OrderC 2).2.2 (by decide)).1

/-! ### Claim C8: Sku::new (corrected: the length check counts UTF-8 bytes) -/

/-- Claim C8 (amended): `Sku::new` stores the trimmed, Unicode-upper-cased
input and succeeds exactly when that normalized string is non-empty and its
UTF-8 byte length (Rust `String::len` counts bytes, not characters, and the
check runs after upper-casing) is at most 50; a normalized input over 50
bytes fails with TooLong and an empty or whitespace-only input fails with
Empty. Stated over inputs whose characters lie in the embedded fragment of
the Unicode uppercase table (`upperModelled`), on which the normalization
model is exact. -/
theorem claim_C8_sku_new (raw : List Char) (hdom : ∀ c ∈ raw, upperModelled c) :
    (Sku.new raw = Except.error SkuError.Empty ↔ skuNormalize raw = []) ∧
    (Sku.new raw = Except.error SkuError.TooLong ↔
        skuNormalize raw ≠ [] ∧ 50 < utf8Len (skuNormalize raw)) ∧
    (Sku.new raw = Except.ok { val := skuNormalize raw } ↔
        skuNormalize raw ≠ [] ∧ utf8Len (skuNormalize raw) ≤ 50) := by
  by_cases h1 : skuNormalize raw = []
  · have hE : (skuNormalize raw).isEmpty = true := List.isEmpty_iff.mpr h1
    refine ⟨?_, ?_, ?_⟩ <;> simp [Sku.new, hE, h1]
  · have hE : (skuNormalize raw).isEmpty = false := by
      cases hi : skuNormalize raw with
      | nil => exact absurd hi h1
      | cons a t => rfl
    by_cases h2 : 50 < utf8Len (skuNormalize raw)
    · refine ⟨?_, ?_, ?_⟩ <;> simp [Sku.new, hE, h1, h2, Nat.not_le.mpr h2]
    · refine ⟨?_, ?_, ?_⟩ <;> simp [Sku.new, hE, h1, h2, Nat.not_lt.mp h2]

/-- Seventeen euro signs: 17 characters but 51 UTF-8 bytes; trimming and
upper-casing leave them unchanged. -/
def c8Cex : List Char := List.replicate 17 '€'

/-- Counterexample to C8 as stated: the normalized input has only 17
characters (at most 50), yet `Sku::new` fails with TooLong, because the
source checks `value.len() > 50` on the UTF-8 byte length (51 here). -/
theorem claim_C8_counterexample :
    Sku.new c8Cex = Except.error SkuError.TooLong ∧
    skuNormalize c8Cex ≠ [] ∧
    (skuNormalize c8Cex).length = 17 ∧
    (skuNormalize c8Cex).length ≤ 50 ∧
    utf8Len (skuNormalize c8Cex) = 51 := by
  refine ⟨rfl, by decide, by decide, by decide, by decide⟩

/-- Witness for C8 on an ordinary input: "  prod-001  " normalizes to
"PROD-001" and is accepted. -/
theorem claim_C8_witness :
    Sku.new (String.toList "  prod-001  ") =
      Except.ok { val := skuNormalize (String.toList "  prod-001  ") } ∧
    skuNormalize (String.toList "  prod-001  ") = String.toList "PROD-001" := by
  refine ⟨?_, by decide⟩
  exact (claim_C8_sku_new (String.toList "  prod-001  ") (by decide)).2.2.mpr
    ⟨by decide, by decide⟩

/-! ### Helper lemmas about the cart list operations -/

/-- When no line shares the item's product and variant identity, the merge
of `Cart::add_item` finds nothing. -/
theorem addItemMerge_none (item : CartItem) (l : List CartItem)
    (h : ∀ i ∈ l, ¬(i.product_id = item.product_id ∧ i.variant_id = item.variant_id)) :
    addItemMerge item l = none := by
  induction l with
  | nil => rfl
  | cons a t ih =>
    have ha := h a (List.mem_cons_self a t)
    have ht : ∀ i ∈ t, ¬(i.product_id = item.product_id ∧ i.variant_id = item.variant_id) :=
      fun i hi => h i (List.mem_cons_of_mem a hi)
    simp [addItemMerge, ha, ih ht]

/-- The merge of `Cart::add_item` bumps the quantity of the first line that
shares the item's product and variant identity and leaves all other lines
alone. -/
theorem addItemMerge_append (item i : CartItem) (pre post : List CartItem)
    (hi : i.product_id = item.product_id ∧ i.variant_id = item.variant_id)
    (hpre : ∀ j ∈ pre, ¬(j.product_id = item.product_id ∧ j.variant_id = item.variant_id)) :
    addItemMerge item (pre ++ i :: post) =
      some (pre ++ { i with quantity := (i.quantity + item.quantity) % u32Mod } :: post) := by
  induction pre with
  | nil => simp [addItemMerge, hi]
  | cons a t ih =>
    have ha := hpre a (List.mem_cons_self a t)
    have ht : ∀ j ∈ t, ¬(j.product_id = item.product_id ∧ j.variant_id = item.variant_id) :=
      fun j hj => hpre j (List.mem_cons_of_mem a hj)
    simp [addItemMerge, ha, ih ht]

/-- `setFirstQuantity` overwrites the quantity of the first line matching
the product id and leaves all other lines alone. -/
theorem setFirstQuantity_append (pid : String) (q : Nat) (i : CartItem)
    (pre post : List CartItem) (hi : i.product_id = pid)
    (hpre : ∀ j ∈ pre, j.product_id ≠ pid) :
    setFirstQuantity pid q (pre ++ i :: post) = pre ++ { i with quantity := q } :: post := by
  induction pre with
  | nil => simp [setFirstQuantity, hi]
  | cons a t ih =>
    have ha := hpre a (List.mem_cons_self a t)
    have ht : ∀ j ∈ t, j.product_id ≠ pid := fun j hj => hpre j (List.mem_cons_of_mem a hj)
    simp [setFirstQuantity, ha, ih ht]

/-! ### Claim C6: Cart::add_item merge (corrected: u32 addition wraps) -/

/-- Claim C6 (amended): `add_item` merges when an existing line shares the
item's product and (optional) variant identity: the first such line's
quantity becomes the wrapping 32-bit sum `(existing + added) % 2^32` — equal
to the plain sum whenever that sum fits in a u32 — and the line count is
unchanged; when no line matches, the item is appended as a new line. -/
theorem claim_C6_add_item (c : Cart) (item : CartItem) (now : Nat) :
    ((∀ i ∈ c.items, ¬(i.product_id = item.product_id ∧ i.variant_id = item.variant_id)) →
       (c.add_item item now).items = c.items ++ [item]) ∧
    (∀ pre i post, c.items = pre ++ i :: post →
       (i.product_id = item.product_id ∧ i.variant_id = item.variant_id) →
       (∀ j ∈ pre, ¬(j.product_id = item.product_id ∧ j.variant_id = item.variant_id)) →
       (c.add_item item now).items =
         pre ++ { i with quantity := (i.quantity + item.quantity) % u32Mod } :: post ∧
       (c.add_item item now).items.length = c.items.length) := by
  constructor
  · intro h
    show (Cart.recalculate _ _).items = _
    rw [addItemMerge_none item c.items h]
    rfl
  · intro pre i post hc hi hpre
    have hm := addItemMerge_append item i pre post hi hpre
    have hit : (c.add_item item now).items =
        pre ++ { i with quantity := (i.quantity + item.quantity) % u32Mod } :: post := by
      show (Cart.recalculate _ _).items = _
      rw [hc, hm]
      rfl
    refine ⟨hit, ?_⟩
    rw [hit, hc]
    simp

/-- The single line of the C6 witness cart. -/
def c6Item1 : CartItem :=
  { product_id := "P1", variant_id := none, name := "Widget", sku := "W1",
    quantity := 2, unit_price := Money.usd 10 }

/-- The item merged into the C6 witness cart: same product and variant
identity, quantity 3. -/
def c6Item2 : CartItem := { c6Item1 with quantity := 3 }

/-- The C6 witness cart holding one line of quantity 2. -/
def c6Cart : Cart :=
  { id := "c6", customer_id := none, session_id := none, items := [c6Item1],
    subtotal := Money.usd 20, currency := "USD", created_at := 0, updated_at := 0 }

/-- Witness for C6: merging quantity 3 into a quantity-2 line yields one
line of quantity 5 and leaves the line count at 1. -/
theorem claim_C6_witness :
    (c6Cart.add_item c6Item2 5).items = [{ c6Item1 with quantity := (2 + 3) % u32Mod }] ∧
    (c6Cart.add_item c6Item2 5).items.length = c6Cart.items.length := by
  have h := (claim_C6_add_item c6Cart c6Item2 5).2 [] c6Item1 [] rfl
    (by exact ⟨rfl, rfl⟩) (by simp)
  exact ⟨h.1, h.2⟩

/-- The line whose quantity is already at `u32::MAX`, for the C6
counterexample. -/
def c6CexItem1 : CartItem := { c6Item1 with quantity := u32Max }

/-- The same-identity item of quantity 1 merged on top of `u32::MAX`. -/
def c6CexItem2 : CartItem := { c6Item1 with quantity := 1 }

/-- The cart holding the quantity-`u32::MAX` line. -/
def c6CexCart : Cart :=
  { c6Cart with items := [c6CexItem1] }

/-- Counterexample to C6 as stated ("this holds for all quantity values"):
merging quantity 1 into a line of quantity `u32::MAX` yields quantity 0 —
the wrapped u32 sum — not the arithmetic sum 2^32. -/
theorem claim_C6_counterexample :
    (c6CexCart.add_item c6CexItem2 5).items.map CartItem.quantity = [0] ∧
    (0 : Nat) ≠ u32Max + 1 := by
  constructor
  · rfl
  · decide

/-! ### Claim C7: Cart::update_quantity -/

/-- Claim C7: `update_quantity` fails with ItemNotFound exactly when no line
matches the product id, and on failure the cart — items, subtotal and the
`updated_at` timestamp — is completely unchanged; when a line matches,
quantity 0 removes every line with that product id (no zero-quantity line
remains) and a non-zero quantity overwrites the first matching line's
quantity verbatim. -/
theorem claim_C7_update_quantity (c : Cart) (pid : String) (q now : Nat) :
    ((c.update_quantity pid q now).1 = Except.error CartError.ItemNotFound ↔
        ∀ i ∈ c.items, i.product_id ≠ pid) ∧
    ((∀ i ∈ c.items, i.product_id ≠ pid) → (c.update_quantity pid q now).2 = c) ∧
    ((∃ i ∈ c.items, i.product_id = pid) → q = 0 →
      (c.update_quantity pid q now).2.items =
        c.items.filter (fun i => i.product_id != pid) ∧
      ∀ j ∈ (c.update_quantity pid q now).2.items, j.product_id ≠ pid) ∧
    (∀ pre i post, c.items = pre ++ i :: post → i.product_id = pid →
      (∀ j ∈ pre, j.product_id ≠ pid) → q ≠ 0 →
      (c.update_quantity pid q now).2.items = pre ++ { i with quantity := q } :: post) := by
  cases hf : c.items.find? (fun i => i.product_id == pid) with
  | none =>
    have hall : ∀ i ∈ c.items, i.product_id ≠ pid := by
      intro i hi
      have hni := List.find?_eq_none.mp hf i hi
      simpa using hni
    have h1 : c.update_quantity pid q now = (Except.error CartError.ItemNotFound, c) := by
      simp [Cart.update_quantity, hf]
    refine ⟨?_, fun _ => ?_, ?_, ?_⟩
    · rw [h1]
      exact iff_of_true rfl hall
    · rw [h1]
    · rintro ⟨i, hi, hip⟩ _
      exact absurd hip (hall i hi)
    · intro pre i post hc hip _ _
      have hmem : i ∈ c.items := by
        rw [hc]
        exact List.mem_append_right _ (List.mem_cons_self _ _)
      exact absurd hip (hall i hmem)
  | some w =>
    have hwmem : w ∈ c.items := List.mem_of_find?_eq_some hf
    have hwp : w.product_id = pid := by
      have := List.find?_some hf
      simpa using this
    have h1 : c.update_quantity pid q now =
        (Except.ok (),
         Cart.recalculate
           { c with
               items :=
                 if q = 0 then c.items.filter (fun i => i.product_id != pid)
                 else setFirstQuantity pid q c.items } now) := by
      simp [Cart.update_quantity, hf]
    refine ⟨?_, ?_, ?_, ?_⟩
    · rw [h1]
      refine iff_of_false (by simp) ?_
      intro h
      exact absurd hwp (h w hwmem)
    · intro h
      exact absurd hwp (h w hwmem)
    · intro _ hq
      subst hq
      rw [h1]
      constructor
      · simp [Cart.recalculate]
      · intro j hj
        simp only [Cart.recalculate, if_pos rfl] at hj
        have hj2 : j ∈ c.items.filter (fun i => i.product_id != pid) := hj
        have := List.of_mem_filter hj2
        simpa using this
    · intro pre i post hc hip hpre hq
      rw [h1]
      have hs := setFirstQuantity_append pid q i pre post hip hpre
      simp only [Cart.recalculate, if_neg hq]
      rw [hc]
      exact hs

/-- The single line of the C7 witness cart. -/
def c7Item : CartItem :=
  { product_id := "P9", variant_id := none, name := "W", sku := "S",
    quantity := 4, unit_price := Money.usd 3 }

/-- The C7 witness cart. -/
def c7Cart : Cart :=
  { id := "c7", customer_id := none, session_id := none, items := [c7Item],
    subtotal := Money.usd 12, currency := "USD", created_at := 0, updated_at := 0 }

/-- Witness for C7: an absent product id leaves the cart untouched,
quantity 0 removes the line, and quantity 5 overwrites it verbatim. -/
theorem claim_C7_witness :
    (c7Cart.update_quantity "NOPE" 2 9).2 = c7Cart ∧
    (c7Cart.update_quantity "P9" 0 9).2.items = [] ∧
    (c7Cart.update_quantity "P9" 5 9).2.items = [{ c7Item with quantity := 5 }] := by
  refine ⟨?_, ?_, ?_⟩
  · exact (claim_C7_update_quantity c7Cart "NOPE" 2 9).2.1 (by decide)
  · have h := (claim_C7_update_quantity c7Cart "P9" 0 9).2.2.1 ⟨c7Item, List.mem_cons_self c7Item [], rfl⟩ rfl
    rw [h.1]
    rfl
  · exact (claim_C7_update_quantity c7Cart "P9" 5 9).2.2.2 [] c7Item [] rfl rfl
      (by simp) (by decide)

/-! ### Claim C10: update_quantity matches by product id only -/

/-- Claim C10: on a cart holding two lines with the same product id but
different variant ids, `update_quantity(pid, 0)` removes both lines while
`update_quantity(pid, n)` with `n > 0` rewrites only the first line's
quantity — whereas `add_item`, which matches on product and variant
identity, merges into the second line when the added item carries the
second variant. -/
theorem claim_C10_update_matches_product_only (c : Cart) (a b : CartItem) (n now : Nat)
    (hitems : c.items = [a, b]) (hb : b.product_id = a.product_id)
    (hv : a.variant_id ≠ b.variant_id) :
    ((c.update_quantity a.product_id 0 now).1 = Except.ok () ∧
     (c.update_quantity a.product_id 0 now).2.items = []) ∧
    (n ≠ 0 →
      (c.update_quantity a.product_id n now).2.items = [{ a with quantity := n }, b]) ∧
    (∀ item : CartItem, item.product_id = a.product_id → item.variant_id = b.variant_id →
      (c.add_item item now).items =
        [a, { b with quantity := (b.quantity + item.quantity) % u32Mod }]) := by
  have hfa : c.items.find? (fun i => i.product_id == a.product_id) = some a := by
    rw [hitems]
    simp [List.find?]
  refine ⟨?_, ?_, ?_⟩
  · constructor
    · simp [Cart.update_quantity, hfa]
    · simp [Cart.update_quantity, hfa, Cart.recalculate, hitems, hb]
  · intro hn
    simp [Cart.update_quantity, hfa, Cart.recalculate, hitems, hn, setFirstQuantity]
  · intro item h1 h2
    have hcond1 : ¬(a.product_id = item.product_id ∧ a.variant_id = item.variant_id) := by
      rintro ⟨-, hvv⟩
      exact hv (hvv.trans h2)
    have hcond2 : b.product_id = item.product_id ∧ b.variant_id = item.variant_id :=
      ⟨hb.trans h1.symm, h2.symm⟩
    show (Cart.recalculate _ _).items = _
    rw [hitems]
    have hm : addItemMerge item [a, b] =
        some [a, { b with quantity := (b.quantity + item.quantity) % u32Mod }] := by
      simpa using addItemMerge_append item b [a] [] hcond2 (by simpa using hcond1)
    rw [hm]
    rfl

/-- First variant line of the C10 witness cart. -/
def c10a : CartItem :=
  { product_id := "P1", variant_id := some "A", name := "W", sku := "S",
    quantity := 1, unit_price := Money.usd 10 }

/-- Second variant line of the C10 witness cart: same product id, different
variant id. -/
def c10b : CartItem := { c10a with variant_id := some "B", quantity := 2 }

/-- The C10 witness cart holding the two variant lines. -/
def c10Cart : Cart :=
  { id := "c10", customer_id := none, session_id := none, items := [c10a, c10b],
    subtotal := Money.usd 30, currency := "USD", created_at := 0, updated_at := 0 }

/-- Witness for C10: quantity 0 removes both variant lines; quantity 7
rewrites only the first. -/
theorem claim_C10_witness :
    (c10Cart.update_quantity "P1" 0 5).2.items = [] ∧
    (c10Cart.update_quantity "P1" 7 5).2.items = [{ c10a with quantity := 7 }, c10b] := by
  have h := claim_C10_update_matches_product_only c10Cart c10a c10b 7 5 rfl rfl (by decide)
  exact ⟨h.1.2, h.2.1 (by decide)⟩

/-! ### Claim C1: cart subtotal invariant -/

/-- After any recalculation the cart's subtotal is the fold of the line
totals in the cart's currency. -/
theorem cart_recalc_inv (c : Cart) (now : Nat) :
    (c.recalculate now).subtotal =
      cartFoldSubtotal (c.recalculate now).currency (c.recalculate now).items := rfl

/-- A failed `update_quantity` returns the cart unchanged; a successful one
returns a recalculated cart. -/
theorem update_quantity_snd_cases (c : Cart) (pid : String) (q now : Nat) :
    (c.update_quantity pid q now).2 = c ∨
    ∃ c2, (c.update_quantity pid q now).2 = Cart.recalculate c2 now := by
  unfold Cart.update_quantity
  cases c.items.find? (fun i => i.product_id == pid) with
  | none => exact Or.inl rfl
  | some w => exact Or.inr ⟨_, rfl⟩

/-- A failed `remove_item` returns the cart unchanged; a successful one
returns a recalculated cart. -/
theorem remove_item_snd_cases (c : Cart) (pid : String) (now : Nat) :
    (c.remove_item pid now).2 = c ∨
    ∃ c2, (c.remove_item pid now).2 = Cart.recalculate c2 now := by
  unfold Cart.remove_item
  by_cases h : (c.items.filter (fun i => i.product_id != pid)).length = c.items.length
  · rw [if_pos h]
    exact Or.inl rfl
  · rw [if_neg h]
    exact Or.inr ⟨_, rfl⟩

/-- Claim C1: every cart reachable through the public operations satisfies
the subtotal invariant — its subtotal equals the fold of the line totals
(unit price × quantity) in the cart's currency, where a line whose currency
mismatches the accumulator leaves the accumulator unchanged. This holds
after every mutation, including for carts holding lines priced in a
currency different from the cart's. -/
theorem claim_C1_cart_subtotal (c : Cart) (h : c.Reachable) :
    c.subtotal = cartFoldSubtotal c.currency c.items := by
  induction h with
  | new currency id now => rfl
  | for_customer customer_id currency id now => rfl
  | add_item item now _ _ => exact cart_recalc_inv _ _
  | update_quantity pid q now _ ih =>
    rcases update_quantity_snd_cases _ pid q now with h2 | ⟨c2, h2⟩
    · rw [h2]
      exact ih
    · rw [h2]
      exact cart_recalc_inv c2 now
  | remove_item pid now _ ih =>
    rcases remove_item_snd_cases _ pid now with h2 | ⟨c2, h2⟩
    · rw [h2]
      exact ih
    · rw [h2]
      exact cart_recalc_inv c2 now
  | clear now _ _ => exact cart_recalc_inv _ _

/-- A USD line for the C1 witness cart. -/
def c1ItemUsd : CartItem :=
  { product_id := "P1", variant_id := none, name := "W", sku := "S",
    quantity := 2, unit_price := Money.usd 10 }

/-- A EUR line for the C1 witness cart: its currency differs from the
cart's USD stamp, exercising the defensive fallback of the fold. -/
def c1ItemEur : CartItem :=
  { c1ItemUsd with product_id := "P2", unit_price := Money.new 5 "EUR" }

/-- The C1 witness cart, built by the public operations, holding one USD
line and one mismatched EUR line. -/
def c1CartW : Cart := ((Cart.new "USD" "c1" 0).add_item c1ItemUsd 1).add_item c1ItemEur 2

/-- Witness for C1 on a reachable cart that includes a currency-mismatched
line. -/
theorem claim_C1_witness :
    c1CartW.subtotal = cartFoldSubtotal c1CartW.currency c1CartW.items :=
  claim_C1_cart_subtotal c1CartW
    (Cart.Reachable.add_item c1ItemEur 2
      (Cart.Reachable.add_item c1ItemUsd 1 (Cart.Reachable.new "USD" "c1" 0)))

/-! ### Claim C3: order total invariant -/

/-- The money-field invariant of the order aggregate: shipping, tax and
total share the subtotal's currency, and the total amount is subtotal plus
shipping plus tax (the discount field does not enter the formula). -/
def Order.moneyInv (o : Order) : Prop :=
  o.shipping.currency = o.subtotal.currency ∧
  o.tax.currency = o.subtotal.currency ∧
  o.total.currency = o.subtotal.currency ∧
  o.total.amount = o.subtotal.amount + o.shipping.amount + o.tax.amount

/-- The accumulation step of the recalculation folds keeps the
accumulator's currency. -/
theorem moneyAccum_currency (acc m : Money) :
    (moneyAccum acc m).currency = acc.currency := by
  unfold moneyAccum Money.add
  by_cases h : acc.currency ≠ m.currency <;> simp [h, Money.new]

/-- On matching currencies the accumulation step is a plain addition of
amounts. -/
theorem moneyAccum_ok (acc m : Money) (h : acc.currency = m.currency) :
    moneyAccum acc m = Money.new (acc.amount + m.amount) acc.currency := by
  unfold moneyAccum Money.add
  simp [h]

/-- The fold of the stored line totals keeps the currency it starts from. -/
theorem foldLineTotals_currency (z : Money) (l : List LineItem) :
    (l.foldl (fun acc i => moneyAccum acc i.total) z).currency = z.currency := by
  induction l generalizing z with
  | nil => rfl
  | cons a t ih => rw [List.foldl_cons, ih, moneyAccum_currency]

/-- `Order::recalculate` establishes the money-field invariant whenever
shipping and tax carry the subtotal's currency. -/
theorem recalculate_moneyInv (o : Order) (now : Nat)
    (hs : o.shipping.currency = o.subtotal.currency)
    (ht : o.tax.currency = o.subtotal.currency) :
    Order.moneyInv (o.recalculate now) := by
  unfold Order.moneyInv Order.recalculate
  dsimp only
  set s2 := List.foldl (fun acc i => moneyAccum acc i.total)
    (Money.zero o.subtotal.currency) o.items with hs2
  have hsc : s2.currency = o.subtotal.currency := by
    rw [hs2, foldLineTotals_currency]
    rfl
  have e2 : moneyAccum s2 o.shipping = Money.new (s2.amount + o.shipping.amount) s2.currency :=
    moneyAccum_ok _ _ (by rw [hsc, hs])
  have e3 : moneyAccum (Money.new (s2.amount + o.shipping.amount) s2.currency) o.tax =
      Money.new (s2.amount + o.shipping.amount + o.tax.amount) s2.currency :=
    moneyAccum_ok _ _ (by show s2.currency = o.tax.currency; rw [hsc, ht])
  refine ⟨by rw [hsc, hs], by rw [hsc, ht], ?_, ?_⟩
  · rw [e2, e3]
    rfl
  · rw [e2, e3]
    rfl

/-- Claim C3: every order reachable through the public operations has its
total equal to subtotal + shipping + tax, all in one currency; the discount
field is not subtracted in (it never enters the formula). -/
theorem claim_C3_order_total (o : Order) (h : o.Reachable) :
    o.total.amount = o.subtotal.amount + o.shipping.amount + o.tax.amount ∧
    o.total.currency = o.subtotal.currency ∧
    o.shipping.currency = o.subtotal.currency ∧
    o.tax.currency = o.subtotal.currency := by
  have hinv : Order.moneyInv o := by
    induction h with
    | create order_number customer_id email currency id now =>
      refine ⟨rfl, rfl, rfl, ?_⟩
      show (0 : Decimal) = 0 + 0 + 0
      norm_num
    | add_item item now _ ih => exact recalculate_moneyInv _ _ ih.1 ih.2.1
    | @confirm o2 now _ ih =>
      cases hI : o2.items.isEmpty <;> simp [Order.confirm, hI] <;> exact ih
    | mark_paid now _ ih => exact ih
    | ship now _ ih => exact ih
    | deliver now _ ih => exact ih
    | @cancel o2 now _ ih =>
      by_cases hD : o2.status = OrderStatus.Delivered <;> simp [Order.cancel, hD] <;> exact ih
    | take_events _ ih => exact ih
  exact ⟨hinv.2.2.2, hinv.2.2.1, hinv.1, hinv.2.1⟩

/-- The line item of the C3 witness order. -/
def c3Line : LineItem :=
  { id := "1", product_id := "P1", name := "W", sku := "S",
    quantity := 2, unit_price := Money.usd 10, total := Money.usd 20 }

/-- The C3 witness order: created, one line added, then confirmed. -/
def c3Order : Order :=
  (((Order.create 1002 "C" "e" "USD" "oid-3" 0).add_item c3Line 1).confirm 2).2

/-- Witness for C3 on a reachable order. -/
theorem claim_C3_witness :
    c3Order.total.amount = c3Order.subtotal.amount + c3Order.shipping.amount + c3Order.tax.amount :=
  (claim_C3_order_total c3Order
    (Order.Reachable.confirm 2
      (Order.Reachable.add_item c3Line 1
        (Order.Reachable.create 1002 "C" "e" "USD" "oid-3" 0)))).1

end Ecom
